import Mathlib

/-!
A shallow embedding, in Lean 4, of the event-to-span normalization core of the
OpenInference instrumentation packages (the llama-index handler, the langchain
tracer, and the litellm instrumentor), together with theorems about the
embedded definitions.

Conventions used throughout:
* Python dictionaries with string keys are embedded as association lists
  `List (String × _)` (or, for attribute tables whose lookups are pointwise,
  as functions `String → Option _`).
* Payload mappings whose values are integer token counts are embedded as
  structures with one `Option Int` field per key read by the source; a `none`
  field corresponds to an absent key (`dict.get` returning `None`), in which
  case Python's `int()` conversion cannot fail.
* Fallible Python code (a `try`/`except` around an extraction rule) is
  embedded with `Except String`, and catching corresponds to matching on the
  `Except` value.
* Calls made against the OpenTelemetry span backend are reified as a list of
  `OtelCall` values returned alongside the new state.
-/

namespace OpenInference

/-! ### Attribute names and enumeration values

The string constants below come from the `openinference.semconv.trace` package,
which the sources import but which is not among the source files.  Modelled
from the spec: the spec names the produced attribute namespaces and paths
(for example `llm.token_count.prompt`, `llm.input_messages.0.message.role`,
`message.contents.0.*`, `llm.provider`, `llm.system`,
`openinference.span.kind`), and the enumeration leaf values are the
lower-case provider/system identifiers and upper-case span kinds used there. -/

def LLM_TOKEN_COUNT_PROMPT : String := "llm.token_count.prompt"

def LLM_TOKEN_COUNT_COMPLETION : String := "llm.token_count.completion"

def LLM_TOKEN_COUNT_TOTAL : String := "llm.token_count.total"

def LLM_TOKEN_COUNT_PROMPT_DETAILS_CACHE_READ : String :=
  "llm.token_count.prompt_details.cache_read"

def LLM_TOKEN_COUNT_PROMPT_DETAILS_CACHE_WRITE : String :=
  "llm.token_count.prompt_details.cache_write"

def LLM_TOKEN_COUNT_PROMPT_DETAILS_AUDIO_ATTR : String :=
  "llm.token_count.prompt_details.audio"

def LLM_TOKEN_COUNT_COMPLETION_DETAILS_REASONING : String :=
  "llm.token_count.completion_details.reasoning"

def LLM_TOKEN_COUNT_COMPLETION_DETAILS_AUDIO_ATTR : String :=
  "llm.token_count.completion_details.audio"

def LLM_PROVIDER : String := "llm.provider"

def LLM_SYSTEM : String := "llm.system"

def LLM_INPUT_MESSAGES : String := "llm.input_messages"

def OPENINFERENCE_SPAN_KIND : String := "openinference.span.kind"

def CHAIN : String := "CHAIN"

def MESSAGE_ROLE : String := "message.role"

def MESSAGE_CONTENT : String := "message.content"

def MESSAGE_CONTENTS : String := "message.contents"

def MESSAGE_NAME : String := "message.name"

def MESSAGE_TOOL_CALL_ID : String := "message.tool_call_id"

def MESSAGE_CONTENT_TYPE : String := "message_content.type"

def MESSAGE_CONTENT_TEXT : String := "message_content.text"

def MESSAGE_CONTENT_IMAGE : String := "message_content.image"

def IMAGE_URL : String := "image.url"

def JSON_MIME : String := "application/json"

def PROVIDER_ANTHROPIC : String := "anthropic"

def PROVIDER_AZURE : String := "azure"

def PROVIDER_AWS : String := "aws"

def PROVIDER_COHERE : String := "cohere"

def PROVIDER_DEEPSEEK : String := "deepseek"

def PROVIDER_GOOGLE : String := "google"

def PROVIDER_MISTRALAI : String := "mistralai"

def PROVIDER_OPENAI : String := "openai"

def PROVIDER_XAI : String := "xai"

def SYSTEM_ANTHROPIC : String := "anthropic"

def SYSTEM_COHERE : String := "cohere"

def SYSTEM_MISTRALAI : String := "mistralai"

def SYSTEM_OPENAI : String := "openai"

def SYSTEM_VERTEXAI : String := "vertexai"

/-! ### JSON values and Python-style `json.dumps`

Embeds the JSON-safe values handled by `json.dumps` /
`safe_json_dumps` with Python's default separators `", "` and `": "` and
`ensure_ascii=False` (used by `_json_dumps` in the langchain tracer and by
`safe_json_dumps` in the litellm instrumentor). -/

inductive JVal where
  | null
  | bool (b : Bool)
  | num (n : Int)
  | str (s : String)
  | arr (xs : List JVal)
  | obj (fields : List (String × JVal))

def JVal.isStr : JVal → Bool
  | .str _ => true
  | _ => false

def hexDigit (n : Nat) : Char :=
  if n < 10 then Char.ofNat (48 + n) else Char.ofNat (87 + n)

/-- Python's `json` module escapes the quote, the backslash and control
characters inside string literals. -/
def escChar (c : Char) : String :=
  if c = '"' then "\\\""
  else if c = '\\' then "\\\\"
  else if c = '\n' then "\\n"
  else if c = '\t' then "\\t"
  else if c = '\r' then "\\r"
  else if c.toNat < 32 then
    "\\u00" ++ String.singleton (hexDigit (c.toNat / 16))
      ++ String.singleton (hexDigit (c.toNat % 16))
  else String.singleton c

def quoteJson (s : String) : String :=
  "\"" ++ String.join (s.data.map escChar) ++ "\""

/-- Decimal digit character. -/
def digitChar (n : Nat) : Char :=
  match n with
  | 0 => '0' | 1 => '1' | 2 => '2' | 3 => '3' | 4 => '4'
  | 5 => '5' | 6 => '6' | 7 => '7' | 8 => '8' | 9 => '9'
  | _ => '*'

def natToChars : Nat → Nat → List Char
  | 0, _ => []
  | fuel + 1, n =>
    if n < 10 then [digitChar n] else natToChars fuel (n / 10) ++ [digitChar (n % 10)]

/-- Decimal rendering of a natural number (as in a Python f-string index). -/
def natToString (n : Nat) : String := ⟨natToChars (n + 1) n⟩

/-- Decimal rendering of an integer (as in Python json number output). -/
def intToString : Int → String
  | .ofNat n => natToString n
  | .negSucc n => "-" ++ natToString (n + 1)

mutual

def jsonDumps : JVal → String
  | .null => "null"
  | .bool true => "true"
  | .bool false => "false"
  | .num n => intToString n
  | .str s => quoteJson s
  | .arr xs => "[" ++ jsonDumpsList xs ++ "]"
  | .obj fs => "\x7b" ++ jsonDumpsFields fs ++ "\x7d"

def jsonDumpsList : List JVal → String
  | [] => ""
  | [x] => jsonDumps x
  | x :: y :: xs => jsonDumps x ++ ", " ++ jsonDumpsList (y :: xs)

def jsonDumpsFields : List (String × JVal) → String
  | [] => ""
  | [(k, v)] => quoteJson k ++ ": " ++ jsonDumps v
  | (k, v) :: f :: fs => quoteJson k ++ ": " ++ jsonDumps v ++ ", " ++ jsonDumpsFields (f :: fs)

end

/-! ### Input/output value conversion (langchain `_convert_io`) -/

/-- Python's `str.startswith`. -/
def strStarts (p s : String) : Bool := p.data.isPrefixOf s.data

/-- Python's `str.endswith`. -/
def strEnds (p s : String) : Bool := p.data.isSuffixOf s.data

/-- ASCII lower-casing of one character (`str.lower` on the ASCII identifiers
handled by the provider tables). -/
def charLower (c : Char) : Char :=
  if 'A' ≤ c ∧ c ≤ 'Z' then Char.ofNat (c.toNat + 32) else c

/-- Python's `str.lower` on ASCII strings. -/
def strToLower (s : String) : String := ⟨s.data.map charLower⟩

/-- The condition under which `_convert_io` emits the JSON MIME type for a
single `input`/`output` key: the serialized value looks like a JSON object or
a JSON array. -/
def mimeFlagCond (jsonValue : String) : Bool :=
  (strStarts "\x7b" jsonValue && strEnds "\x7d" jsonValue)
    || (strStarts "[" jsonValue && strEnds "]" jsonValue)

/-- Embeds `_convert_io` from the langchain tracer.  The input record is the
`run.inputs` / `run.outputs` dictionary; the output is the (at most two
element) sequence of yielded strings: the value, then optionally the JSON
MIME type. -/
def convertInputOutput : List (String × JVal) → List String
  | [] => []
  | [(k, v)] =>
    match v with
    | .str s => [s]
    | _ =>
      if k = "input" ∨ k = "output" then
        let jsonValue := jsonDumps v
        jsonValue :: (if mimeFlagCond jsonValue then [JSON_MIME] else [])
      else [jsonDumps (.obj [(k, v)]), JSON_MIME]
  | kvs => [jsonDumps (.obj kvs), JSON_MIME]

/-! ### Token counts (llama-index `_get_token_counts_impl`) -/

structure PromptTokensDetails where
  cached_tokens : Option Int
  audio_tokens : Option Int
deriving Repr, DecidableEq

structure CompletionTokensDetails where
  reasoning_tokens : Option Int
  audio_tokens : Option Int
deriving Repr, DecidableEq

/-- A token-usage payload as read by `_get_token_counts_impl`: one `Option Int`
field per key the source reads with `get_value`; `none` means the key is
absent. -/
structure Usage where
  prompt_tokens : Option Int
  prompt_tokens_details : Option PromptTokensDetails
  completion_tokens : Option Int
  completion_tokens_details : Option CompletionTokensDetails
  total_tokens : Option Int
  output_tokens : Option Int
  cache_creation_input_tokens : Option Int
  cache_read_input_tokens : Option Int
  input_tokens : Option Int
  prompt_token_count : Option Int
  candidates_token_count : Option Int
  total_token_count : Option Int
deriving Repr, DecidableEq

/-- A `get_value` result that is present yields one attribute pair, an absent
one yields nothing. -/
def optTok (o : Option Int) (key : String) : List (String × Int) :=
  match o with
  | some v => [(key, v)]
  | none => []

/-- Embeds `_get_token_counts_impl` from the llama-index handler, in source
order: the OpenAI block, the Anthropic block (where `input_tokens` has the
cache-write and cache-read counts added when present), then the VertexAI
block. -/
def getTokenCountsImpl (usage : Usage) : List (String × Int) :=
  optTok usage.prompt_tokens LLM_TOKEN_COUNT_PROMPT ++
  (match usage.prompt_tokens_details with
   | some d =>
     optTok d.cached_tokens LLM_TOKEN_COUNT_PROMPT_DETAILS_CACHE_READ ++
     optTok d.audio_tokens LLM_TOKEN_COUNT_PROMPT_DETAILS_AUDIO_ATTR
   | none => []) ++
  optTok usage.completion_tokens LLM_TOKEN_COUNT_COMPLETION ++
  (match usage.completion_tokens_details with
   | some d =>
     optTok d.reasoning_tokens LLM_TOKEN_COUNT_COMPLETION_DETAILS_REASONING ++
     optTok d.audio_tokens LLM_TOKEN_COUNT_COMPLETION_DETAILS_AUDIO_ATTR
   | none => []) ++
  optTok usage.total_tokens LLM_TOKEN_COUNT_TOTAL ++
  optTok usage.output_tokens LLM_TOKEN_COUNT_COMPLETION ++
  optTok usage.cache_creation_input_tokens LLM_TOKEN_COUNT_PROMPT_DETAILS_CACHE_WRITE ++
  optTok usage.cache_read_input_tokens LLM_TOKEN_COUNT_PROMPT_DETAILS_CACHE_READ ++
  (match usage.input_tokens with
   | some i =>
     [(LLM_TOKEN_COUNT_PROMPT,
       i + usage.cache_creation_input_tokens.getD 0 + usage.cache_read_input_tokens.getD 0)]
   | none => []) ++
  optTok usage.prompt_token_count LLM_TOKEN_COUNT_PROMPT ++
  optTok usage.candidates_token_count LLM_TOKEN_COUNT_COMPLETION ++
  optTok usage.total_token_count LLM_TOKEN_COUNT_TOTAL

/-! ### Token counts (langchain `_token_counts`) -/

/-- A token-usage mapping as read by the langchain `_token_counts`, with one
`Option Int` field per key read through `_get_first_value`. -/
structure LCUsage where
  prompt_tokens : Option Int
  input_tokens : Option Int
  prompt_token_count : Option Int
  completion_tokens : Option Int
  output_tokens : Option Int
  candidates_token_count : Option Int
  total_tokens : Option Int
  total_token_count : Option Int
  cache_read_input_tokens : Option Int
  cache_creation_input_tokens : Option Int
  completion_tokens_details : Option CompletionTokensDetails
  prompt_tokens_details : Option PromptTokensDetails
deriving Repr, DecidableEq

/-- Embeds `_get_first_value`: the first non-`None` value in key order. -/
def firstSome : List (Option Int) → Option Int
  | [] => none
  | some v :: _ => some v
  | none :: rest => firstSome rest

/-- Embeds the attribute-emitting loops of the langchain `_token_counts`,
applied to an already-located token-usage mapping.  Note that for the prompt
count the first non-`None` of `prompt_tokens`, `input_tokens`,
`prompt_token_count` is emitted verbatim; the Anthropic cache counts are
emitted only as separate detail attributes. -/
def lcTokenCounts (token_usage : LCUsage) : List (String × Int) :=
  optTok (firstSome [token_usage.prompt_tokens, token_usage.input_tokens,
    token_usage.prompt_token_count]) LLM_TOKEN_COUNT_PROMPT ++
  optTok (firstSome [token_usage.completion_tokens, token_usage.output_tokens,
    token_usage.candidates_token_count]) LLM_TOKEN_COUNT_COMPLETION ++
  optTok (firstSome [token_usage.total_tokens, token_usage.total_token_count])
    LLM_TOKEN_COUNT_TOTAL ++
  optTok (firstSome [token_usage.cache_read_input_tokens])
    LLM_TOKEN_COUNT_PROMPT_DETAILS_CACHE_READ ++
  optTok (firstSome [token_usage.cache_creation_input_tokens])
    LLM_TOKEN_COUNT_PROMPT_DETAILS_CACHE_WRITE ++
  (match token_usage.completion_tokens_details with
   | some d =>
     optTok (firstSome [d.audio_tokens]) LLM_TOKEN_COUNT_COMPLETION_DETAILS_AUDIO_ATTR ++
     optTok (firstSome [d.reasoning_tokens]) LLM_TOKEN_COUNT_COMPLETION_DETAILS_REASONING
   | none => []) ++
  (match token_usage.prompt_tokens_details with
   | some d =>
     optTok (firstSome [d.audio_tokens]) LLM_TOKEN_COUNT_PROMPT_DETAILS_AUDIO_ATTR ++
     optTok (firstSome [d.cached_tokens]) LLM_TOKEN_COUNT_PROMPT_DETAILS_CACHE_READ
   | none => [])

/-- The Anthropic-shaped payload of the spec,
`[input_tokens: i, cache_creation_input_tokens: c, cache_read_input_tokens: r]`,
as a `Usage`. -/
def anthropicUsage (i c r : Int) : Usage :=
  { prompt_tokens := none, prompt_tokens_details := none, completion_tokens := none,
    completion_tokens_details := none, total_tokens := none, output_tokens := none,
    cache_creation_input_tokens := some c, cache_read_input_tokens := some r,
    input_tokens := some i, prompt_token_count := none, candidates_token_count := none,
    total_token_count := none }

/-- The same Anthropic-shaped payload as an `LCUsage`. -/
def anthropicLCUsage (i c r : Int) : LCUsage :=
  { prompt_tokens := none, input_tokens := some i, prompt_token_count := none,
    completion_tokens := none, output_tokens := none, candidates_token_count := none,
    total_tokens := none, total_token_count := none,
    cache_read_input_tokens := some r, cache_creation_input_tokens := some c,
    completion_tokens_details := none, prompt_tokens_details := none }

/-! ### Span state and the terminal paths (llama-index `_Span.end`,
`_SpanHandler.prepare_to_drop_span`, langchain `_update_span`) -/

/-- An exception value: its type name, its message (`str(e)`), and whether it
is an instance of the `WorkflowDone` cancellation class. -/
structure Exc where
  typeName : String
  msg : String
  isWorkflowDone : Bool
deriving Repr, DecidableEq

inductive StatusCode where
  | ok
  | error
deriving Repr, DecidableEq

structure Status where
  code : StatusCode
  description : Option String
deriving Repr, DecidableEq

/-- A call made against the OpenTelemetry span backend. -/
inductive OtelCall where
  | recordException (e : Exc)
  | addEvent (name : String) (attrs : List (String × String))
  | setStatus (s : Status)
  | setAttributes (attrs : List (String × String))
  | endSpan (endTime : Option Nat)
deriving Repr, DecidableEq

/-- The mutable state of a `_Span` node relevant to its terminal paths:
the `_active` flag, the accumulated attribute map, the span kind, the deferred
end time and the last-activity time. -/
structure SpanSt where
  id_ : String
  active : Bool
  attributes : List (String × String)
  spanKind : Option String
  endTime : Option Nat
  lastUpdatedAt : Nat
deriving Repr, DecidableEq

/-- Python dict assignment on an association list: replace the first binding
of the key, else append. -/
def setAttrKey : List (String × String) → String → String → List (String × String)
  | [], k, v => [(k, v)]
  | (k0, v0) :: rest, k, v =>
    if k0 = k then (k, v) :: rest else (k0, v0) :: setAttrKey rest k v

/-- Embeds `self._span_kind or CHAIN`. -/
def spanKindOrChain (k : Option String) : String :=
  match k with
  | some s => if s.isEmpty then CHAIN else s
  | none => CHAIN

/-- Embeds `_Span.end`.  A span that is not `_active` returns immediately with
no backend call.  Otherwise the span deactivates, records the exception (if
any), sets the span kind, and issues `set_status`, `set_attributes` and `end`
against the backend, in source order. -/
def spanEnd (s : SpanSt) (exception : Option Exc) : SpanSt × List OtelCall :=
  if s.active = false then (s, [])
  else
    let finalAttrs := setAttrKey s.attributes OPENINFERENCE_SPAN_KIND (spanKindOrChain s.spanKind)
    let s1 : SpanSt := { s with active := false, attributes := finalAttrs }
    match exception with
    | none =>
      (s1, [.setStatus ⟨.ok, none⟩, .setAttributes finalAttrs, .endSpan s.endTime])
    | some e =>
      (s1, [.recordException e,
            .setStatus ⟨.error, some (e.typeName ++ ": " ++ e.msg)⟩,
            .setAttributes finalAttrs, .endSpan s.endTime])

/-- A sequence of `end` calls against the same span, with the backend calls
of each concatenated. -/
def runEnds : SpanSt → List (Option Exc) → SpanSt × List OtelCall
  | s, [] => (s, [])
  | s, e :: es =>
    let step := spanEnd s e
    let rest := runEnds step.1 es
    (rest.1, step.2 ++ rest.2)

def countEndCalls : List OtelCall → Nat
  | [] => 0
  | .endSpan _ :: rest => countEndCalls rest + 1
  | _ :: rest => countEndCalls rest

/-- The number of exception events recorded on a span: `record_exception`
calls, plus explicit `add_event` calls named `"exception"` (OpenTelemetry's
`record_exception` itself adds an event of that name). -/
def countExceptionEvents : List OtelCall → Nat
  | [] => 0
  | .recordException _ :: rest => countExceptionEvents rest + 1
  | .addEvent name _ :: rest =>
    (if name = "exception" then 1 else 0) + countExceptionEvents rest
  | _ :: rest => countExceptionEvents rest

/-- Embeds the error terminal path of `_SpanHandler.prepare_to_drop_span` for
a found span: a `WorkflowDone` error is treated as a clean end, every other
error (and a missing error) is passed to `_Span.end`. -/
def prepareToDropSpan (s : SpanSt) (err : Option Exc) : SpanSt × List OtelCall :=
  match err with
  | some e => if e.isWorkflowDone then spanEnd s none else spanEnd s (some e)
  | none => spanEnd s none

/-- The langchain `IGNORED_EXCEPTION_PATTERNS`; both regexes are anchored
literal-prefix patterns. -/
def IGNORED_EXCEPTION_PATTERNS : List String := ["Command(", "ParentCommand("]

def matchesIgnoredPattern (err : String) : Bool :=
  IGNORED_EXCEPTION_PATTERNS.any fun p => strStarts p err

/-- Embeds the status-setting part of the langchain `_update_span`: status OK
when there is no error or the error matches an ignore pattern, else status
ERROR carrying `run.error` as the description. -/
def updateSpanStatus (error : Option String) : Status :=
  match error with
  | none => ⟨.ok, none⟩
  | some e => if matchesIgnoredPattern e then ⟨.ok, none⟩ else ⟨.error, some e⟩

/-! ### The langchain exception recording (`_record_exception`,
`on_llm_error` / `on_chain_error` / `on_retriever_error` / `on_tool_error`) -/

/-- OpenTelemetry exception-event attribute names, from the
`opentelemetry.semconv.trace` dependency used by `_record_exception`. -/
def EXCEPTION_TYPE : String := "exception.type"

def EXCEPTION_MESSAGE : String := "exception.message"

def EXCEPTION_ESCAPED : String := "exception.escaped"

def EXCEPTION_STACKTRACE : String := "exception.stacktrace"

/-- An error value as seen by the langchain tracer's error handlers: its type
name, its message (`str(error)`), its `repr`, and whether it is an instance
of `Exception` (as opposed to a bare `BaseException`). -/
structure LCError where
  typeName : String
  msg : String
  reprStr : String
  isException : Bool
deriving Repr, DecidableEq

/-- Embeds the langchain `_record_exception`: an `Exception` instance goes
through the backend's `record_exception`; any other `BaseException` gets an
explicit `add_event("exception", ...)` with type/message/escaped/stacktrace
attributes (the escaped flag `False` is rendered as its string, and the
stacktrace text produced by `traceback.format_exc()` is a parameter).  There
is no ignore-pattern check on this path: every error records exactly one
exception event. -/
def lcRecordException (error : LCError) (stacktrace : String) : List OtelCall :=
  if error.isException then
    [.recordException ⟨error.typeName, error.msg, false⟩]
  else
    let exception_message := if error.msg.isEmpty then error.reprStr else error.msg
    [.addEvent "exception"
      [(EXCEPTION_TYPE, error.typeName),
       (EXCEPTION_MESSAGE, exception_message),
       (EXCEPTION_ESCAPED, "False"),
       (EXCEPTION_STACKTRACE, stacktrace)]]

/-- Embeds the langchain error terminal path for a span found in
`_spans_by_run`: `on_llm_error`/`on_chain_error`/`on_retriever_error`/
`on_tool_error` call `_record_exception` unconditionally, and the subsequent
`_end_trace` calls `_update_span`, which sets the status from the `run.error`
string (stored by the base tracer; `runError` is that string). -/
def lcErrorTerminalPath (error : LCError) (stacktrace : String) (runError : String) :
    List OtelCall :=
  lcRecordException error stacktrace ++ [.setStatus (updateSpanStatus (some runError))]

/-! ### The export queue sweep (llama-index `_ExportQueue._sweep`) -/

/-- A queue entry of the export queue: the time it was last touched by a sweep
pass, and the span awaiting streaming. -/
structure QueueItem where
  lastTouchedAt : Nat
  span : SpanSt
deriving Repr, DecidableEq

/-- Embeds the treatment of one queue entry in one sweep pass at time `t`:
an inactive span is dropped with no backend call; an active span whose
last-activity age exceeds 60 seconds is force-finalized via `_Span.end` and
dropped; otherwise the entry is requeued touched at `t`. -/
def sweepStep (t : Nat) (item : QueueItem) : Option QueueItem × Option (SpanSt × List OtelCall) :=
  if item.span.active = false then (none, none)
  else if 60 < t - item.span.lastUpdatedAt then (none, some (spanEnd item.span none))
  else (some { item with lastTouchedAt := t }, none)

/-- One full sweep pass at time `t` over the queue: the requeued entries in
order, and the ended spans with their backend calls.  (The sentinel timestamp
comparison of the source only serves to stop the pass after each original
entry has been visited once, which this list traversal does by construction.) -/
def sweepPass (t : Nat) : List QueueItem → List QueueItem × List (SpanSt × List OtelCall)
  | [] => ([], [])
  | it :: rest =>
    let step := sweepStep t it
    let restPass := sweepPass t rest
    ((match step.1 with | some r => r :: restPass.1 | none => restPass.1),
     (match step.2 with | some x => x :: restPass.2 | none => restPass.2))

/-! ### Message flattening (llama-index `_Span._process_messages`) -/

/-- The payload of a llama-index `ImageBlock`: raw image bytes with a MIME
type, a URL, or a path, tried in that order. -/
structure ImageBlockData where
  image : Option String
  image_mimetype : Option String
  url : Option String
  path : Option String
deriving Repr, DecidableEq

inductive Block where
  | text (txt : String)
  | image (b : ImageBlockData)
deriving Repr, DecidableEq

/-- Embeds `_get_attributes_from_text_block`. -/
def getAttributesFromTextBlock (txt : String) (pfx : String) : List (String × String) :=
  [(pfx ++ MESSAGE_CONTENT_TYPE, "text"), (pfx ++ MESSAGE_CONTENT_TEXT, txt)]

/-- Embeds `_get_attributes_from_image_block`. -/
def getAttributesFromImageBlock (b : ImageBlockData) (pfx : String) : List (String × String) :=
  match b.image, b.image_mimetype with
  | some img, some mt =>
    [(pfx ++ MESSAGE_CONTENT_IMAGE ++ "." ++ IMAGE_URL, "data:" ++ mt ++ ";base64," ++ img),
     (pfx ++ MESSAGE_CONTENT_TYPE, "image")]
  | _, _ =>
    match b.url with
    | some u =>
      [(pfx ++ MESSAGE_CONTENT_IMAGE ++ "." ++ IMAGE_URL, u),
       (pfx ++ MESSAGE_CONTENT_TYPE, "image")]
    | none =>
      match b.path with
      | some p =>
        [(pfx ++ MESSAGE_CONTENT_IMAGE ++ "." ++ IMAGE_URL, p),
         (pfx ++ MESSAGE_CONTENT_TYPE, "image")]
      | none => []

/-- Embeds `_get_attributes_from_content_block`. -/
def getAttributesFromContentBlock (b : Block) (pfx : String) : List (String × String) :=
  match b with
  | .text t => getAttributesFromTextBlock t pfx
  | .image ib => getAttributesFromImageBlock ib pfx

/-- A llama-index `ChatMessage` as read by `_process_messages`: role, content
blocks, and the `name` / `tool_call_id` entries of `additional_kwargs`.  (The
`tool_calls` entry of `additional_kwargs` feeds a separate tool-call
extraction that is independent of content flattening and is not modelled
here.) -/
structure ChatMessage where
  role : String
  blocks : List Block
  name : Option String
  tool_call_id : Option String
deriving Repr, DecidableEq

/-- Embeds the body of `_process_messages` for the message at index `i`: the
role attribute; then either the single flat content attribute (exactly one
text block) or the indexed `message.contents.j.*` entries; then the
`additional_kwargs` name and tool-call-id attributes. -/
def messageAttributesAt (pfx : String) (i : Nat) (m : ChatMessage) : List (String × String) :=
  let mpfx := pfx ++ "." ++ natToString i ++ "."
  [(mpfx ++ MESSAGE_ROLE, m.role)] ++
  (match m.blocks with
   | [Block.text t] => [(mpfx ++ MESSAGE_CONTENT, t)]
   | blocks =>
     blocks.enum.flatMap fun jb =>
       getAttributesFromContentBlock jb.2
         (mpfx ++ MESSAGE_CONTENTS ++ "." ++ natToString jb.1 ++ ".")) ++
  (match m.name with | some n => [(mpfx ++ MESSAGE_NAME, n)] | none => []) ++
  (match m.tool_call_id with | some tid => [(mpfx ++ MESSAGE_TOOL_CALL_ID, tid)] | none => [])

/-- Embeds `_process_messages` over the whole message list. -/
def processMessages (pfx : String) (msgs : List ChatMessage) : List (String × String) :=
  msgs.enum.flatMap fun im => messageAttributesAt pfx im.1 im.2

/-! ### Message flattening (langchain `_extract_message_kwargs`) -/

/-- An element of a langchain message `content` list: a bare string, a text
block, an image-url block (collapsed to its url, empty when absent/falsy), or
a block of an unrecognized type (which yields nothing). -/
inductive LCBlock where
  | plain (s : String)
  | textBlock (text : String)
  | imageBlock (url : String)
  | otherBlock (type_ : String)
deriving Repr, DecidableEq

/-- A langchain message `content` value: a plain string or a list of items. -/
inductive LCContent where
  | str (s : String)
  | list (items : List LCBlock)
deriving Repr, DecidableEq

/-- Embeds the langchain `_get_attributes_from_message_content`. -/
def lcGetAttributesFromMessageContent : LCBlock → List (String × String)
  | .plain _ => []
  | .textBlock t =>
    [(MESSAGE_CONTENT_TYPE, "text")] ++ (if t.isEmpty then [] else [(MESSAGE_CONTENT_TEXT, t)])
  | .imageBlock u =>
    [(MESSAGE_CONTENT_TYPE, "image")] ++
      (if u.isEmpty then [] else [(MESSAGE_CONTENT_IMAGE ++ "." ++ IMAGE_URL, u)])
  | .otherBlock _ => []

/-- Embeds `_extract_message_kwargs` applied to the `kwargs` fields of a
message payload: a non-empty string content yields the single flat content
attribute; a non-empty list content yields indexed `message.contents.i.*`
entries for every element; then the tool-call-id and name attributes. -/
def lcExtractMessageKwargs (content : Option LCContent) (tool_call_id : Option String)
    (name : Option String) : List (String × String) :=
  (match content with
   | none => []
   | some (.str s) => if s.isEmpty then [] else [(MESSAGE_CONTENT, s)]
   | some (.list items) =>
     if items.isEmpty then []
     else
       items.enum.flatMap fun iobj =>
         match iobj.2 with
         | .plain s =>
           [(MESSAGE_CONTENTS ++ "." ++ natToString iobj.1 ++ "." ++ MESSAGE_CONTENT_TEXT, s)]
         | b =>
           (lcGetAttributesFromMessageContent b).map
             fun kv => (MESSAGE_CONTENTS ++ "." ++ natToString iobj.1 ++ "." ++ kv.1, kv.2)) ++
  (match tool_call_id with
   | some tid => if tid.isEmpty then [] else [(MESSAGE_TOOL_CALL_ID, tid)]
   | none => []) ++
  (match name with
   | some n => if n.isEmpty then [] else [(MESSAGE_NAME, n)]
   | none => [])

/-! ### Event dispatch (llama-index `EventHandler.handle`) -/

/-- An event as seen by `EventHandler.handle`: the owning span id (optional)
and the event id. -/
structure Event where
  spanId : Option String
  eventId : String
deriving Repr, DecidableEq

inductive HandleOutcome where
  | suppressed
  | noSpanId
  | missingSpanWarned
  | processed (s : SpanSt)
  | caughtError (msg : String)
deriving Repr, DecidableEq

/-- The span lookup of `EventHandler.handle`: first the open-span registry,
then the export queue. -/
def lookupSpan (sid : String) (openSpans exportQueueSpans : List (String × SpanSt)) :
    Option SpanSt :=
  match openSpans.lookup sid with
  | some sp => some sp
  | none => exportQueueSpans.lookup sid

/-- Embeds `EventHandler.handle`.  The extraction rule (`process_event`) may
fail with an exception, embedded as `Except.error`; `handle` catches it, so
the result is always `Except.ok`: nothing propagates to the host. -/
def handleEvent (suppressed : Bool) (openSpans exportQueueSpans : List (String × SpanSt))
    (rule : Event → SpanSt → Except String SpanSt) (e : Event) :
    Except String HandleOutcome :=
  if suppressed then .ok .suppressed
  else
    match e.spanId with
    | none => .ok .noSpanId
    | some sid =>
      if sid.isEmpty then .ok .noSpanId
      else
        match lookupSpan sid openSpans exportQueueSpans with
        | none => .ok .missingSpanWarned
        | some sp =>
          match rule e sp with
          | .ok s1 => .ok (.processed s1)
          | .error m => .ok (.caughtError m)

/-! ### Provider and system inference (langchain `_llm_provider`,
`_llm_system`, `_PROVIDER_TO_SYSTEM`, `_LANGCHAIN_PROVIDER_MAP`) -/

/-- Embeds `_PROVIDER_TO_SYSTEM`; `none` embeds the `_NA` placeholder. -/
def PROVIDER_TO_SYSTEM : List (String × Option String) :=
  [("anthropic", some SYSTEM_ANTHROPIC),
   ("azure", some SYSTEM_OPENAI),
   ("azure_ai", some SYSTEM_OPENAI),
   ("azure_openai", some SYSTEM_OPENAI),
   ("bedrock", none),
   ("bedrock_converse", none),
   ("cohere", some SYSTEM_COHERE),
   ("deepseek", none),
   ("fireworks", none),
   ("google", some SYSTEM_VERTEXAI),
   ("google_anthropic_vertex", some SYSTEM_ANTHROPIC),
   ("google_genai", some SYSTEM_VERTEXAI),
   ("google_vertexai", some SYSTEM_VERTEXAI),
   ("groq", some SYSTEM_OPENAI),
   ("huggingface", none),
   ("ibm", none),
   ("mistralai", some SYSTEM_MISTRALAI),
   ("ollama", some SYSTEM_OPENAI),
   ("openai", some SYSTEM_OPENAI),
   ("perplexity", none),
   ("together", none),
   ("vertex", some SYSTEM_VERTEXAI),
   ("vertexai", some SYSTEM_VERTEXAI),
   ("xai", none)]

/-- Embeds `_LANGCHAIN_PROVIDER_MAP`. -/
def LANGCHAIN_PROVIDER_MAP : List (String × String) :=
  [("anthropic", PROVIDER_ANTHROPIC),
   ("azure", PROVIDER_AZURE),
   ("azure_ai", PROVIDER_AZURE),
   ("azure_openai", PROVIDER_AZURE),
   ("bedrock", PROVIDER_AWS),
   ("bedrock_converse", PROVIDER_AWS),
   ("cohere", PROVIDER_COHERE),
   ("deepseek", PROVIDER_DEEPSEEK),
   ("fireworks", "fireworks"),
   ("google", PROVIDER_GOOGLE),
   ("google_anthropic_vertex", PROVIDER_GOOGLE),
   ("google_genai", PROVIDER_GOOGLE),
   ("google_vertexai", PROVIDER_GOOGLE),
   ("groq", "groq"),
   ("huggingface", "huggingface"),
   ("ibm", "ibm"),
   ("mistralai", PROVIDER_MISTRALAI),
   ("nvidia", "nvidia"),
   ("ollama", "ollama"),
   ("openai", PROVIDER_OPENAI),
   ("perplexity", "perplexity"),
   ("together", "together"),
   ("vertex", PROVIDER_GOOGLE),
   ("vertexai", PROVIDER_GOOGLE),
   ("xai", PROVIDER_XAI)]

/-- Embeds `_llm_provider` applied to a present `ls_provider` identifier: the
lower-cased identifier is mapped through the table, with the lower-cased
literal as fallback (the Python `or` also falls back on an empty mapped
value). -/
def llmProviderAttr (ls_provider : String) : List (String × String) :=
  if ls_provider.isEmpty then []
  else
    let lower := strToLower ls_provider
    [(LLM_PROVIDER,
      match LANGCHAIN_PROVIDER_MAP.lookup lower with
      | some v => if v.isEmpty then lower else v
      | none => lower)]

/-- Embeds `_llm_system` applied to a present `ls_provider` identifier: an
attribute is yielded only when the table maps the lower-cased identifier to a
truthy system value. -/
def llmSystemAttr (ls_provider : String) : List (String × String) :=
  if ls_provider.isEmpty then []
  else
    let lower := strToLower ls_provider
    match PROVIDER_TO_SYSTEM.lookup lower with
    | some (some s) => if s.isEmpty then [] else [(LLM_SYSTEM, s)]
    | some none => []
    | none => []

/-! ### Invocation-parameter redaction (litellm
`_instrument_func_type_completion`) -/

def KEYS_TO_REDACT : List String := ["api_key", "messages"]

/-- Embeds `invocation_params = {k: v for k, v in kwargs.items() if k not in
KEYS_TO_REDACT}`. -/
def invocationParameters (kwargs : List (String × JVal)) : List (String × JVal) :=
  kwargs.filter fun kv => !(KEYS_TO_REDACT.contains kv.1)

/-- The serialized `llm.invocation_parameters` attribute value:
`safe_json_dumps(invocation_params)`. -/
def emittedInvocationParameters (kwargs : List (String × JVal)) : String :=
  jsonDumps (.obj (invocationParameters kwargs))

/-- Python's `in` on strings: `pat in s`. -/
def containsSub (pat s : String) : Bool :=
  (List.range (s.length + 1)).any fun i => pat.data.isPrefixOf (s.data.drop i)

/-! ### Install/uninstall round trip (litellm `LiteLLMInstrumentor`) -/

/-- The litellm function attributes patched by `_instrument`
(`acompletion_with_retries` is commented out in the source). -/
def litellmFuncNames : List String :=
  ["completion", "acompletion", "completion_with_retries", "embedding", "aembedding",
   "image_generation", "aimage_generation"]

/-- `setattr` on a module whose attributes are a map from name to function
object (function objects are represented by numbers). -/
def updFn (m : String → Option Nat) (k : String) (v : Nat) : String → Option Nat :=
  fun k1 => if k1 = k then some v else m k1

/-- Embeds the patch loop of `_instrument` over a list of function names:
every present attribute is saved in the original-function registry (in
iteration order) and replaced by its wrapper `w n`. -/
def instrumentAux (w : String → Nat) : List String → (String → Option Nat) →
    ((String → Option Nat) × List (String × Nat))
  | [], m => (m, [])
  | n :: ns, m =>
    match m n with
    | some orig =>
      let rest := instrumentAux w ns (updFn m n (w n))
      (rest.1, (n, orig) :: rest.2)
    | none => instrumentAux w ns m

/-- Embeds `LiteLLMInstrumentor._instrument`: the registry starts empty (the
class attribute is `{}`). -/
def litellmInstrument (w : String → Nat) (m : String → Option Nat) :
    (String → Option Nat) × List (String × Nat) :=
  instrumentAux w litellmFuncNames m

/-- Embeds the restore loop of `_uninstrument`: every registry entry is
written back with `setattr`. -/
def uninstrumentAux : List (String × Nat) → (String → Option Nat) → (String → Option Nat)
  | [], m => m
  | (n, orig) :: rest, m => uninstrumentAux rest (updFn m n orig)

/-- Embeds `LiteLLMInstrumentor._uninstrument`: restore all saved originals,
then clear the registry. -/
def litellmUninstrument (reg : List (String × Nat)) (m : String → Option Nat) :
    (String → Option Nat) × List (String × Nat) :=
  (uninstrumentAux reg m, [])

/-! ## Helper lemmas -/

theorem spanEnd_inactive (s : SpanSt) (e : Option Exc) (h : s.active = false) :
    spanEnd s e = (s, []) := by
  simp [spanEnd, h]

theorem spanEnd_fst_active (s : SpanSt) (e : Option Exc) : (spanEnd s e).1.active = false := by
  by_cases h : s.active = false
  · simp [spanEnd, h]
  · cases e <;> simp [spanEnd, h]

theorem runEnds_inactive (s : SpanSt) (es : List (Option Exc)) (h : s.active = false) :
    runEnds s es = (s, []) := by
  induction es with
  | nil => rfl
  | cons e es ih => simp [runEnds, spanEnd_inactive s e h, ih]

/-! ## Claim theorems -/

/-- C1 counterexample: on the Anthropic-shaped payload
`[input_tokens: 10, cache_creation_input_tokens: 2, cache_read_input_tokens: 3]`
the langchain token-count extraction (`_token_counts`, one of the two
extractions the claim covers) emits `llm.token_count.prompt = 10`, the verbatim
`input_tokens`, and never emits the additive value `15`. -/
theorem C1_counterexample_langchain_not_additive :
    lcTokenCounts (anthropicLCUsage 10 2 3) =
      [(LLM_TOKEN_COUNT_PROMPT, 10),
       (LLM_TOKEN_COUNT_PROMPT_DETAILS_CACHE_READ, 3),
       (LLM_TOKEN_COUNT_PROMPT_DETAILS_CACHE_WRITE, 2)] ∧
    (LLM_TOKEN_COUNT_PROMPT, (15 : Int)) ∉ lcTokenCounts (anthropicLCUsage 10 2 3) := by
  constructor
  · rfl
  · decide

/-- C1 (amended): on an Anthropic-shaped payload with `input_tokens = i`,
`cache_creation_input_tokens = c` and `cache_read_input_tokens = r`, the
llama-index extraction `_get_token_counts_impl` emits
`llm.token_count.prompt = i + c + r` (additive, `15` for the spec's example),
while the langchain extraction `_token_counts` emits
`llm.token_count.prompt = i` verbatim with the cache counts only as separate
cache-read/cache-write detail attributes. -/
theorem C1_token_count_prompt_anthropic (i c r : Int) :
    getTokenCountsImpl (anthropicUsage i c r) =
      [(LLM_TOKEN_COUNT_PROMPT_DETAILS_CACHE_WRITE, c),
       (LLM_TOKEN_COUNT_PROMPT_DETAILS_CACHE_READ, r),
       (LLM_TOKEN_COUNT_PROMPT, i + c + r)] ∧
    lcTokenCounts (anthropicLCUsage i c r) =
      [(LLM_TOKEN_COUNT_PROMPT, i),
       (LLM_TOKEN_COUNT_PROMPT_DETAILS_CACHE_READ, r),
       (LLM_TOKEN_COUNT_PROMPT_DETAILS_CACHE_WRITE, c)] := by
  constructor <;> rfl

/-- C2: at most one finalize call reaches the tracing backend per span.  Over
any sequence of `_Span.end` invocations (with or without exceptions) at most
one backend `end` call is issued; a span that has gone through `end` once is
inactive, and any later `end` — and the drop terminal path — on it is a no-op
that changes nothing and issues no backend call, so its attribute set, status
and end time are never exported a second time. -/
theorem C2_span_end_exported_at_most_once (s : SpanSt) (excs : List (Option Exc))
    (e1 e2 : Option Exc) (errOpt : Option Exc) :
    countEndCalls (runEnds s excs).2 ≤ 1 ∧
    spanEnd (spanEnd s e1).1 e2 = ((spanEnd s e1).1, []) ∧
    prepareToDropSpan (spanEnd s e1).1 errOpt = ((spanEnd s e1).1, []) := by
  refine ⟨?_, ?_, ?_⟩
  · cases hs : s.active with
    | false =>
      rw [runEnds_inactive s excs hs]
      simp [countEndCalls]
    | true =>
      cases excs with
      | nil => simp [runEnds, countEndCalls]
      | cons e es =>
        have h1 : (spanEnd s e).1.active = false := spanEnd_fst_active s e
        simp [runEnds, runEnds_inactive _ es h1]
        cases e <;> simp [spanEnd, hs, countEndCalls]
  · exact spanEnd_inactive _ e2 (spanEnd_fst_active s e1)
  · have h1 := spanEnd_fst_active s e1
    cases errOpt with
    | none => exact spanEnd_inactive _ none h1
    | some e =>
      by_cases hwd : e.isWorkflowDone = true
      · simp [prepareToDropSpan, hwd, spanEnd_inactive _ none h1]
      · simp [prepareToDropSpan, hwd, spanEnd_inactive _ (some e) h1]

/-- C3 counterexample: in the langchain tracer an error whose `run.error`
matches an ignore pattern (here `ParentCommand(goto=left)`) still records
exactly one exception event — the `on_*_error` handlers call
`_record_exception` unconditionally — even though the status is set to OK;
and for a non-ignored error the ERROR description is the `run.error` string
verbatim (`ValueError(boom)`), which differs from the claimed
`"{ExceptionTypeName}: {message}"` format at this input. -/
theorem C3_counterexample_langchain_event_and_description :
    countExceptionEvents
      (lcErrorTerminalPath
        ⟨"ParentCommand", "ParentCommand(goto=left)", "ParentCommand(goto=left)", true⟩
        "trace" "ParentCommand(goto=left)") = 1 ∧
    OtelCall.setStatus ⟨.ok, none⟩ ∈
      lcErrorTerminalPath
        ⟨"ParentCommand", "ParentCommand(goto=left)", "ParentCommand(goto=left)", true⟩
        "trace" "ParentCommand(goto=left)" ∧
    OtelCall.setStatus ⟨.error, some "ValueError(boom)"⟩ ∈
      lcErrorTerminalPath ⟨"ValueError", "boom", "ValueError(boom)", true⟩
        "trace" "ValueError(boom)" ∧
    ("ValueError(boom)" : String) ≠ "ValueError" ++ ": " ++ "boom" := by
  refine ⟨rfl, by decide, by decide, by decide⟩

/-- C3 (amended): on the llama-index drop path of an active span, a
`WorkflowDone` cancellation produces status OK with no exception event, and
any other error produces status ERROR with description
`"TypeName: message"` and exactly one exception event.  On the langchain
error terminal path, exactly one exception event is recorded for every
error — including errors whose `run.error` matches an ignore pattern — and
`_update_span` then sets status OK when `run.error` matches an ignore
pattern (prefix `Command(` or `ParentCommand(`) and status ERROR carrying
the `run.error` text verbatim otherwise. -/
theorem C3_error_terminal_path (s : SpanSt) (e : Exc) (error : LCError)
    (stacktrace runError : String) (hs : s.active = true) :
    (e.isWorkflowDone = true →
       countExceptionEvents (prepareToDropSpan s (some e)).2 = 0 ∧
       OtelCall.setStatus ⟨.ok, none⟩ ∈ (prepareToDropSpan s (some e)).2) ∧
    (e.isWorkflowDone = false →
       countExceptionEvents (prepareToDropSpan s (some e)).2 = 1 ∧
       OtelCall.setStatus ⟨.error, some (e.typeName ++ ": " ++ e.msg)⟩ ∈
         (prepareToDropSpan s (some e)).2) ∧
    countExceptionEvents (lcErrorTerminalPath error stacktrace runError) = 1 ∧
    (matchesIgnoredPattern runError = true →
       OtelCall.setStatus ⟨.ok, none⟩ ∈ lcErrorTerminalPath error stacktrace runError) ∧
    (matchesIgnoredPattern runError = false →
       OtelCall.setStatus ⟨.error, some runError⟩ ∈
         lcErrorTerminalPath error stacktrace runError) := by
  refine ⟨fun hw => ?_, fun hw => ?_, ?_, fun hm => ?_, fun hm => ?_⟩
  · constructor <;> simp [prepareToDropSpan, hw, spanEnd, hs, countExceptionEvents]
  · constructor <;> simp [prepareToDropSpan, hw, spanEnd, hs, countExceptionEvents]
  · by_cases hexc : error.isException = true <;>
      simp [lcErrorTerminalPath, lcRecordException, hexc, countExceptionEvents]
  · by_cases hexc : error.isException = true <;>
      simp [lcErrorTerminalPath, lcRecordException, hexc, updateSpanStatus, hm]
  · by_cases hexc : error.isException = true <;>
      simp [lcErrorTerminalPath, lcRecordException, hexc, updateSpanStatus, hm]

/-- A concrete active span used by witnesses. -/
def spanExample : SpanSt :=
  { id_ := "span-1", active := true, attributes := [("input.value", "q")],
    spanKind := none, endTime := none, lastUpdatedAt := 0 }

/-- A concrete langchain-side error used by the C3 witness: a bare
`BaseException` with an empty message (exercising the `repr` fallback). -/
def lcInterruptError : LCError :=
  { typeName := "KeyboardInterrupt", msg := "", reprStr := "KeyboardInterrupt()",
    isException := false }

/-- Witness for C3 at concrete inputs. -/
theorem C3_error_terminal_path_witness :
    spanExample.active = true ∧
    countExceptionEvents (prepareToDropSpan spanExample
      (some ⟨"WorkflowDone", "done", true⟩)).2 = 0 ∧
    countExceptionEvents (prepareToDropSpan spanExample
      (some ⟨"ValueError", "boom", false⟩)).2 = 1 ∧
    countExceptionEvents (lcErrorTerminalPath lcInterruptError "tb" "stop") = 1 ∧
    OtelCall.setStatus ⟨.ok, none⟩ ∈
      lcErrorTerminalPath ⟨"ParentCommand", "m", "r", true⟩ "tb" "Command(resume)" ∧
    OtelCall.setStatus ⟨.error, some "boom"⟩ ∈
      lcErrorTerminalPath ⟨"ValueError", "boom", "r", true⟩ "tb" "boom" :=
  ⟨rfl,
   ((C3_error_terminal_path spanExample ⟨"WorkflowDone", "done", true⟩ lcInterruptError
      "tb" "x" rfl).1 rfl).1,
   ((C3_error_terminal_path spanExample ⟨"ValueError", "boom", false⟩ lcInterruptError
      "tb" "x" rfl).2.1 rfl).1,
   (C3_error_terminal_path spanExample ⟨"ValueError", "boom", false⟩ lcInterruptError
      "tb" "stop" rfl).2.2.1,
   (C3_error_terminal_path spanExample ⟨"ValueError", "boom", false⟩
      ⟨"ParentCommand", "m", "r", true⟩ "tb" "Command(resume)" rfl).2.2.2.1 (by decide),
   (C3_error_terminal_path spanExample ⟨"ValueError", "boom", false⟩
      ⟨"ValueError", "boom", "r", true⟩ "tb" "boom" rfl).2.2.2.2 (by decide)⟩

theorem jsonDumps_obj_eq (fs : List (String × JVal)) :
    jsonDumps (.obj fs) = "\x7b" ++ jsonDumpsFields fs ++ "\x7d" := rfl

theorem jsonDumps_arr_eq (xs : List JVal) :
    jsonDumps (.arr xs) = "[" ++ jsonDumpsList xs ++ "]" := rfl

theorem mimeFlagCond_obj (fs : List (String × JVal)) :
    mimeFlagCond (jsonDumps (.obj fs)) = true := by
  rw [jsonDumps_obj_eq]
  simp [mimeFlagCond, strStarts, strEnds, String.data_append,
    List.isPrefixOf, List.isSuffixOf, List.reverse_append]

theorem mimeFlagCond_arr (xs : List JVal) :
    mimeFlagCond (jsonDumps (.arr xs)) = true := by
  rw [jsonDumps_arr_eq]
  simp [mimeFlagCond, strStarts, strEnds, String.data_append,
    List.isPrefixOf, List.isSuffixOf, List.reverse_append]

theorem mimeFlagCond_str (s : String) :
    mimeFlagCond (jsonDumps (.str s)) = false := by
  show mimeFlagCond ("\"" ++ String.join (s.data.map escChar) ++ "\"") = false
  simp [mimeFlagCond, strStarts, strEnds, String.data_append,
    List.isPrefixOf, List.isSuffixOf, List.reverse_append]

/-- C4: the conversion of a single-field input/output record — a string value
passes through verbatim with no MIME entry; a non-string value is
JSON-encoded (the field value for an `input`/`output` key, the whole record
otherwise) and the JSON MIME type accompanies it exactly when the encoded
result is a JSON object or array: object/array encodings always satisfy the
marker condition, while encoded strings, null and booleans never do. -/
theorem C4_convert_io (k s : String) (v : JVal) (fs : List (String × JVal)) (xs : List JVal)
    (b : Bool) :
    convertInputOutput [(k, JVal.str s)] = [s] ∧
    (v.isStr = false → (k = "input" ∨ k = "output") →
       convertInputOutput [(k, v)] =
         jsonDumps v :: (if mimeFlagCond (jsonDumps v) then [JSON_MIME] else [])) ∧
    (v.isStr = false → ¬(k = "input" ∨ k = "output") →
       convertInputOutput [(k, v)] = [jsonDumps (JVal.obj [(k, v)]), JSON_MIME] ∧
       mimeFlagCond (jsonDumps (JVal.obj [(k, v)])) = true) ∧
    mimeFlagCond (jsonDumps (JVal.obj fs)) = true ∧
    mimeFlagCond (jsonDumps (JVal.arr xs)) = true ∧
    mimeFlagCond (jsonDumps (JVal.str s)) = false ∧
    mimeFlagCond (jsonDumps JVal.null) = false ∧
    mimeFlagCond (jsonDumps (JVal.bool b)) = false := by
  refine ⟨rfl, fun hstr hk => ?_, fun hstr hk => ⟨?_, mimeFlagCond_obj _⟩,
    mimeFlagCond_obj fs, mimeFlagCond_arr xs, mimeFlagCond_str s, by decide, ?_⟩
  · cases v with
    | str s0 => simp [JVal.isStr] at hstr
    | null => simp [convertInputOutput, hk]
    | bool b0 => simp [convertInputOutput, hk]
    | num n => simp [convertInputOutput, hk]
    | arr ys => simp [convertInputOutput, hk]
    | obj gs => simp [convertInputOutput, hk]
  · cases v with
    | str s0 => simp [JVal.isStr] at hstr
    | null => simp [convertInputOutput, hk]
    | bool b0 => simp [convertInputOutput, hk]
    | num n => simp [convertInputOutput, hk]
    | arr ys => simp [convertInputOutput, hk]
    | obj gs => simp [convertInputOutput, hk]
  · cases b <;> decide

/-- Witness for C4 at concrete inputs: an `input` key with a primitive value
gets no MIME entry, with an object value it gets the JSON MIME entry. -/
theorem C4_convert_io_witness :
    convertInputOutput [("input", JVal.num 42)] = ["42"] ∧
    convertInputOutput [("input", JVal.obj [("a", JVal.num 1)])] =
      ["\x7b\"a\": 1\x7d", JSON_MIME] := by
  constructor
  · rw [(C4_convert_io "input" "" (JVal.num 42) [] [] true).2.1 rfl (Or.inl rfl)]
    rfl
  · rw [(C4_convert_io "input" "" (JVal.obj [("a", JVal.num 1)]) [] [] true).2.1 rfl
      (Or.inl rfl)]
    rfl

/-- C5 counterexample: for the langchain extractor, a message whose content is
the one-element list containing the single plain-text block
`[type: text, text: hi]` yields indexed `message.contents.0.*` entries and no
flat `message.content` attribute, contrary to the claim's universal
flattening of single-text-block messages. -/
theorem C5_counterexample_langchain_singleton_block :
    lcExtractMessageKwargs (some (.list [.textBlock "hi"])) none none =
      [("message.contents.0.message_content.type", "text"),
       ("message.contents.0.message_content.text", "hi")] ∧
    MESSAGE_CONTENT ∉
      (lcExtractMessageKwargs (some (.list [.textBlock "hi"])) none none).map Prod.fst := by
  constructor
  · rfl
  · decide

/-- C5 (amended): in the llama-index handler a message with exactly one text
block is flattened to the single flat `message.content` attribute (and a
message with two or more blocks gets the indexed `message.contents.j.*`
entries instead, with no flat content attribute); in the langchain tracer
flattening applies only when the content is a plain string — a content list,
even a singleton text block, always produces indexed entries with no flat
content attribute. -/
theorem C5_message_flattening (pfx : String) (i : Nat) (role t t1 t2 s : String)
    (hs : s.isEmpty = false) (ht : t.isEmpty = false) :
    messageAttributesAt pfx i ⟨role, [.text t], none, none⟩ =
      [(pfx ++ "." ++ natToString i ++ "." ++ MESSAGE_ROLE, role),
       (pfx ++ "." ++ natToString i ++ "." ++ MESSAGE_CONTENT, t)] ∧
    messageAttributesAt LLM_INPUT_MESSAGES 0 ⟨role, [.text t1, .text t2], none, none⟩ =
      [("llm.input_messages.0.message.role", role),
       ("llm.input_messages.0.message.contents.0.message_content.type", "text"),
       ("llm.input_messages.0.message.contents.0.message_content.text", t1),
       ("llm.input_messages.0.message.contents.1.message_content.type", "text"),
       ("llm.input_messages.0.message.contents.1.message_content.text", t2)] ∧
    "llm.input_messages.0.message.content" ∉
      (messageAttributesAt LLM_INPUT_MESSAGES 0 ⟨role, [.text t1, .text t2], none, none⟩).map
        Prod.fst ∧
    lcExtractMessageKwargs (some (.str s)) none none = [(MESSAGE_CONTENT, s)] ∧
    lcExtractMessageKwargs (some (.list [.textBlock t])) none none =
      [("message.contents.0.message_content.type", "text"),
       ("message.contents.0.message_content.text", t)] ∧
    MESSAGE_CONTENT ∉
      (lcExtractMessageKwargs (some (.list [.textBlock t])) none none).map Prod.fst := by
  refine ⟨rfl, by rfl, ?_, ?_, ?_, ?_⟩
  · have h : (messageAttributesAt LLM_INPUT_MESSAGES 0
        ⟨role, [.text t1, .text t2], none, none⟩).map Prod.fst =
        ["llm.input_messages.0.message.role",
         "llm.input_messages.0.message.contents.0.message_content.type",
         "llm.input_messages.0.message.contents.0.message_content.text",
         "llm.input_messages.0.message.contents.1.message_content.type",
         "llm.input_messages.0.message.contents.1.message_content.text"] := by rfl
    rw [h]
    decide
  · simp [lcExtractMessageKwargs, hs]
  · simp [lcExtractMessageKwargs, lcGetAttributesFromMessageContent, ht]
    exact ⟨by decide, by decide⟩
  · simp [lcExtractMessageKwargs, lcGetAttributesFromMessageContent, ht, MESSAGE_CONTENT,
      MESSAGE_CONTENTS, MESSAGE_CONTENT_TYPE, MESSAGE_CONTENT_TEXT]
    exact ⟨by decide, by decide⟩

/-- Witness for C5 at concrete inputs. -/
theorem C5_message_flattening_witness :
    messageAttributesAt "llm.input_messages" 0 ⟨"user", [.text "hi"], none, none⟩ =
      [("llm.input_messages" ++ "." ++ natToString 0 ++ "." ++ MESSAGE_ROLE, "user"),
       ("llm.input_messages" ++ "." ++ natToString 0 ++ "." ++ MESSAGE_CONTENT, "hi")] ∧
    lcExtractMessageKwargs (some (.str "hello")) none none = [(MESSAGE_CONTENT, "hello")] :=
  ⟨(C5_message_flattening "llm.input_messages" 0 "user" "hi" "a" "b" "hello" rfl rfl).1,
   (C5_message_flattening "llm.input_messages" 0 "user" "hi" "a" "b" "hello" rfl
      rfl).2.2.2.1⟩

theorem sweepStep_inactive (t : Nat) (it : QueueItem) (ha : it.span.active = false) :
    sweepStep t it = (none, none) := by
  simp [sweepStep, ha]

theorem sweepStep_timeout (t : Nat) (it : QueueItem) (ha : it.span.active = true)
    (hb : 60 < t - it.span.lastUpdatedAt) :
    sweepStep t it = (none, some (spanEnd it.span none)) := by
  simp [sweepStep, ha, hb]

theorem sweepStep_requeue (t : Nat) (it : QueueItem) (ha : it.span.active = true)
    (hb : ¬(60 < t - it.span.lastUpdatedAt)) :
    sweepStep t it = (some { it with lastTouchedAt := t }, none) := by
  simp [sweepStep, ha, hb]

theorem sweepPass_queue_mem (t : Nat) (q : List QueueItem) :
    ∀ it1 ∈ (sweepPass t q).1, ∃ it0, it0 ∈ q ∧ it1 = { it0 with lastTouchedAt := t } ∧
      it0.span.active = true ∧ ¬(60 < t - it0.span.lastUpdatedAt) := by
  induction q with
  | nil => intro it1 h1; simp [sweepPass] at h1
  | cons it rest ih =>
    intro it1 h1
    by_cases ha : it.span.active = false
    · simp only [sweepPass, sweepStep_inactive t it ha] at h1
      obtain ⟨it0, h0, hrest⟩ := ih it1 h1
      exact ⟨it0, List.mem_cons_of_mem _ h0, hrest⟩
    · have ha1 : it.span.active = true := by simpa using ha
      by_cases hb : 60 < t - it.span.lastUpdatedAt
      · simp only [sweepPass, sweepStep_timeout t it ha1 hb] at h1
        obtain ⟨it0, h0, hrest⟩ := ih it1 h1
        exact ⟨it0, List.mem_cons_of_mem _ h0, hrest⟩
      · simp only [sweepPass, sweepStep_requeue t it ha1 hb] at h1
        rcases List.mem_cons.mp h1 with h1 | h1
        · exact ⟨it, List.mem_cons_self _ _, h1, ha1, hb⟩
        · obtain ⟨it0, h0, hrest⟩ := ih it1 h1
          exact ⟨it0, List.mem_cons_of_mem _ h0, hrest⟩

theorem sweepPass_ended_mem (t : Nat) (q : List QueueItem) (item : QueueItem)
    (hmem : item ∈ q) (hact : item.span.active = true)
    (hto : 60 < t - item.span.lastUpdatedAt) :
    spanEnd item.span none ∈ (sweepPass t q).2 := by
  induction q with
  | nil => simp at hmem
  | cons it rest ih =>
    rcases List.mem_cons.mp hmem with heq | hmem2
    · subst heq
      simp only [sweepPass, sweepStep_timeout t item hact hto]
      exact List.mem_cons_self _ _
    · have h2 := ih hmem2
      by_cases ha : it.span.active = false
      · simp only [sweepPass, sweepStep_inactive t it ha]
        exact h2
      · have ha1 : it.span.active = true := by simpa using ha
        by_cases hb : 60 < t - it.span.lastUpdatedAt
        · simp only [sweepPass, sweepStep_timeout t it ha1 hb]
          exact List.mem_cons_of_mem _ h2
        · simp only [sweepPass, sweepStep_requeue t it ha1 hb]
          exact h2

/-- C6: one sweep pass at time `t` treats each queue entry as follows: an
entry whose span is no longer active is removed without any backend call; an
active entry whose last-activity age exceeds 60 seconds is force-finalized
through `_Span.end` (issuing exactly one backend `end` call and exporting the
accumulated attributes) and removed from the queue; any other entry is
requeued with its touch time refreshed — so an abandoned active span is ended
by the pass and leaves the queue. -/
theorem C6_sweep_pass (t : Nat) (q : List QueueItem) (item : QueueItem) :
    (item.span.active = false → sweepStep t item = (none, none)) ∧
    (item.span.active = true → 60 < t - item.span.lastUpdatedAt →
       sweepStep t item = (none, some (spanEnd item.span none)) ∧
       countEndCalls (spanEnd item.span none).2 = 1 ∧
       OtelCall.setAttributes
           (setAttrKey item.span.attributes OPENINFERENCE_SPAN_KIND
             (spanKindOrChain item.span.spanKind)) ∈ (spanEnd item.span none).2) ∧
    (item.span.active = true → ¬(60 < t - item.span.lastUpdatedAt) →
       sweepStep t item = (some { item with lastTouchedAt := t }, none)) ∧
    (item ∈ q → item.span.active = true → 60 < t - item.span.lastUpdatedAt →
       (q.map fun it => it.span.id_).Nodup →
       spanEnd item.span none ∈ (sweepPass t q).2 ∧
       ∀ it1 ∈ (sweepPass t q).1, it1.span.id_ ≠ item.span.id_) := by
  refine ⟨fun ha => ?_, fun ha hto => ⟨?_, ?_, ?_⟩, fun ha hto => ?_,
    fun hmem ha hto hnd => ⟨sweepPass_ended_mem t q item hmem ha hto, ?_⟩⟩
  · simp [sweepStep, ha]
  · simp [sweepStep, ha, hto]
  · simp [spanEnd, ha, countEndCalls]
  · simp [spanEnd, ha]
  · simp [sweepStep, ha, hto]
  · intro it1 h1 hid
    obtain ⟨it0, h0, heq, hact0, hnoto0⟩ := sweepPass_queue_mem t q it1 h1
    have hspan : it0.span = it1.span := by rw [heq]
    have hff : it0.span.id_ = item.span.id_ := by rw [hspan, hid]
    have : it0 = item := List.inj_on_of_nodup_map hnd h0 hmem hff
    rw [this] at hnoto0
    exact hnoto0 hto

/-- Concrete queue entries for the C6 witness: a stale active span, a fresh
active span, and a span already ended through another path. -/
def staleItem : QueueItem :=
  { lastTouchedAt := 5,
    span := { id_ := "stale", active := true, attributes := [("output.value", "partial")],
              spanKind := some "LLM", endTime := some 7, lastUpdatedAt := 10 } }

def freshItem : QueueItem :=
  { lastTouchedAt := 5,
    span := { id_ := "fresh", active := true, attributes := [],
              spanKind := none, endTime := none, lastUpdatedAt := 90 } }

def endedItem : QueueItem :=
  { lastTouchedAt := 5,
    span := { id_ := "done", active := false, attributes := [],
              spanKind := none, endTime := none, lastUpdatedAt := 90 } }

/-- Witness for C6 at time `t = 100` on a three-entry queue. -/
theorem C6_sweep_pass_witness :
    sweepStep 100 endedItem = (none, none) ∧
    sweepStep 100 freshItem = (some { freshItem with lastTouchedAt := 100 }, none) ∧
    spanEnd staleItem.span none ∈ (sweepPass 100 [staleItem, freshItem, endedItem]).2 ∧
    countEndCalls (spanEnd staleItem.span none).2 = 1 :=
  ⟨(C6_sweep_pass 100 [] endedItem).1 rfl,
   (C6_sweep_pass 100 [] freshItem).2.2.1 rfl (by decide),
   ((C6_sweep_pass 100 [staleItem, freshItem, endedItem] staleItem).2.2.2
      (by decide) rfl (by decide) (by decide)).1,
   ((C6_sweep_pass 100 [] staleItem).2.1 rfl (by decide)).2.1⟩

/-- C7: event dispatch never raises into the host.  `handle` always returns
normally (`Except.ok`); an event whose span id is found neither in the
open-span registry nor in the export queue only yields a logged warning; and
an extraction rule that raises is caught, so the dispatch still returns
normally carrying the logged message. -/
theorem C7_dispatch_never_raises (suppressed : Bool) (oss eqs : List (String × SpanSt))
    (rule : Event → SpanSt → Except String SpanSt) (e : Event) :
    (∃ o, handleEvent suppressed oss eqs rule e = .ok o) ∧
    (∀ sid, suppressed = false → e.spanId = some sid → sid.isEmpty = false →
       oss.lookup sid = none → eqs.lookup sid = none →
       handleEvent suppressed oss eqs rule e = .ok .missingSpanWarned) ∧
    (∀ sid sp m, suppressed = false → e.spanId = some sid → sid.isEmpty = false →
       lookupSpan sid oss eqs = some sp → rule e sp = .error m →
       handleEvent suppressed oss eqs rule e = .ok (.caughtError m)) := by
  refine ⟨?_, ?_, ?_⟩
  · cases hsup : suppressed
    · cases hsid : e.spanId with
      | none => exact ⟨.noSpanId, by simp [handleEvent, hsid]⟩
      | some sid =>
        cases hemp : sid.isEmpty
        · cases hlk : lookupSpan sid oss eqs with
          | none => exact ⟨.missingSpanWarned, by simp [handleEvent, hsid, hemp, hlk]⟩
          | some sp =>
            cases hr : rule e sp with
            | ok s1 =>
              exact ⟨.processed s1, by simp [handleEvent, hsid, hemp, hlk, hr]⟩
            | error m =>
              exact ⟨.caughtError m, by simp [handleEvent, hsid, hemp, hlk, hr]⟩
        · exact ⟨.noSpanId, by simp [handleEvent, hsid, hemp]⟩
    · exact ⟨.suppressed, by simp [handleEvent]⟩
  · intro sid hsup hsid hemp ho hq
    have hlk : lookupSpan sid oss eqs = none := by simp [lookupSpan, ho, hq]
    simp [handleEvent, hsup, hsid, hemp, hlk]
  · intro sid sp m hsup hsid hemp hlk hr
    simp [handleEvent, hsup, hsid, hemp, hlk, hr]

/-- An extraction rule that always raises, for the C7 witness. -/
def ruleBoom : Event → SpanSt → Except String SpanSt :=
  fun _ _ => .error "boom"

/-- Witness for C7 at concrete inputs: a missing span only warns, and a
raising rule is caught. -/
theorem C7_dispatch_never_raises_witness :
    handleEvent false [] [] ruleBoom ⟨some "x", "e1"⟩ = .ok .missingSpanWarned ∧
    handleEvent false [("x", spanExample)] [] ruleBoom ⟨some "x", "e1"⟩ =
      .ok (.caughtError "boom") :=
  ⟨(C7_dispatch_never_raises false [] [] ruleBoom ⟨some "x", "e1"⟩).2.1 "x"
      rfl rfl rfl rfl rfl,
   (C7_dispatch_never_raises false [("x", spanExample)] [] ruleBoom ⟨some "x", "e1"⟩).2.2
      "x" spanExample "boom" rfl rfl rfl rfl rfl⟩

theorem lookup_mem {β : Type _} (k : String) (v : β) :
    ∀ l : List (String × β), l.lookup k = some v → (k, v) ∈ l := by
  intro l
  induction l with
  | nil => intro h; simp [List.lookup] at h
  | cons p rest ih =>
    intro h
    obtain ⟨pk, pv⟩ := p
    simp only [List.lookup] at h
    cases hbeq : (k == pk) with
    | true =>
      rw [hbeq] at h
      have hk2 : k = pk := eq_of_beq hbeq
      have hv : pv = v := by simpa using h
      subst hk2
      subst hv
      exact List.mem_cons_self _ _
    | false =>
      rw [hbeq] at h
      exact List.mem_cons_of_mem _ (ih h)

/-- C8: the lower-cased provider identifier is mapped through
`_LANGCHAIN_PROVIDER_MAP` to the canonical `llm.provider` value, and through
the distinct `_PROVIDER_TO_SYSTEM` table to the canonical `llm.system` value
(`azure`, `azure_ai` and `azure_openai` all map to the OpenAI system);
identifiers outside the provider table pass through as their lower-cased
literal, and identifiers outside the system table (or mapped to the `_NA`
placeholder) yield no `llm.system` attribute. -/
theorem C8_provider_system_tables (p : String) (hp : p.isEmpty = false) :
    ((strToLower p = "azure" ∨ strToLower p = "azure_ai" ∨ strToLower p = "azure_openai") →
       llmSystemAttr p = [(LLM_SYSTEM, SYSTEM_OPENAI)]) ∧
    (∀ v, LANGCHAIN_PROVIDER_MAP.lookup (strToLower p) = some v →
       llmProviderAttr p = [(LLM_PROVIDER, v)]) ∧
    (LANGCHAIN_PROVIDER_MAP.lookup (strToLower p) = none →
       llmProviderAttr p = [(LLM_PROVIDER, strToLower p)]) ∧
    (∀ sv, PROVIDER_TO_SYSTEM.lookup (strToLower p) = some (some sv) →
       llmSystemAttr p = [(LLM_SYSTEM, sv)]) ∧
    (PROVIDER_TO_SYSTEM.lookup (strToLower p) = none → llmSystemAttr p = []) ∧
    (PROVIDER_TO_SYSTEM.lookup (strToLower p) = some none → llmSystemAttr p = []) := by
  refine ⟨fun hcase => ?_, fun v hlk => ?_, fun hlk => ?_, fun sv hlk => ?_,
    fun hlk => ?_, fun hlk => ?_⟩
  · rcases hcase with h | h | h <;> (simp only [llmSystemAttr, hp, h]; decide)
  · have hmem := lookup_mem _ _ _ hlk
    have hvals : ∀ kv ∈ LANGCHAIN_PROVIDER_MAP, kv.2.isEmpty = false := by decide
    have hv : v.isEmpty = false := hvals _ hmem
    simp [llmProviderAttr, hp, hlk, hv]
  · simp [llmProviderAttr, hp, hlk]
  · have hmem := lookup_mem _ _ _ hlk
    have hvals : ∀ kv ∈ PROVIDER_TO_SYSTEM,
        (match kv.2 with | some s0 => !s0.isEmpty | none => true) = true := by decide
    have hsv : sv.isEmpty = false := by
      have := hvals _ hmem
      simpa using this
    simp [llmSystemAttr, hp, hlk, hsv]
  · simp [llmSystemAttr, hp, hlk]
  · simp [llmSystemAttr, hp, hlk]

/-- Witness for C8 at concrete identifiers. -/
theorem C8_provider_system_tables_witness :
    llmSystemAttr "AZURE" = [(LLM_SYSTEM, SYSTEM_OPENAI)] ∧
    llmProviderAttr "AZURE" = [(LLM_PROVIDER, PROVIDER_AZURE)] ∧
    llmProviderAttr "SomeNewVendor" = [(LLM_PROVIDER, "somenewvendor")] ∧
    llmSystemAttr "SomeNewVendor" = [] ∧
    llmSystemAttr "bedrock" = [] :=
  ⟨(C8_provider_system_tables "AZURE" rfl).1 (Or.inl (by decide)),
   (C8_provider_system_tables "AZURE" rfl).2.1 PROVIDER_AZURE (by decide),
   (C8_provider_system_tables "SomeNewVendor" rfl).2.2.1 (by decide),
   (C8_provider_system_tables "SomeNewVendor" rfl).2.2.2.2.1 (by decide),
   (C8_provider_system_tables "bedrock" rfl).2.2.2.2.2 (by decide)⟩

/-- C9 counterexample: with `kwargs = [api_key: "sek", echo: "sek"]` the
serialized invocation parameters are `[echo: "sek"]`, which still contains
the api_key's value `sek` as a substring — so "the serialized invocation
parameters never contain the api_key value, regardless of input" is false as
stated (the `api_key` entry itself is redacted, but the same string can
reach the output through another key). -/
theorem C9_counterexample_value_leaks_through_other_key :
    List.lookup "api_key" [("api_key", JVal.str "sek"), ("echo", JVal.str "sek")] =
      some (JVal.str "sek") ∧
    emittedInvocationParameters [("api_key", JVal.str "sek"), ("echo", JVal.str "sek")] =
      "\x7b\"echo\": \"sek\"\x7d" ∧
    containsSub "sek"
      (emittedInvocationParameters [("api_key", JVal.str "sek"), ("echo", JVal.str "sek")]) =
      true := by
  refine ⟨rfl, rfl, ?_⟩
  decide

/-- C9 (amended): the emitted `llm.invocation_parameters` value is the JSON
encoding of the kwargs with the `api_key` and `messages` entries removed —
every other entry is preserved and the redacted keys never appear — though
the api_key's value string can still occur in the output when another,
non-redacted key maps to it. -/
theorem C9_invocation_parameters_redaction (kwargs : List (String × JVal)) :
    emittedInvocationParameters kwargs = jsonDumps (.obj (invocationParameters kwargs)) ∧
    (∀ kv ∈ invocationParameters kwargs, kv.1 ≠ "api_key" ∧ kv.1 ≠ "messages") ∧
    (∀ kv ∈ kwargs, kv.1 ≠ "api_key" → kv.1 ≠ "messages" →
       kv ∈ invocationParameters kwargs) := by
  refine ⟨rfl, ?_, ?_⟩
  · intro kv hmem
    obtain ⟨-, h2⟩ := List.mem_filter.mp hmem
    simp only [KEYS_TO_REDACT, Bool.not_eq_true'] at h2
    constructor <;> (intro hk; rw [hk] at h2; exact absurd h2 (by decide))
  · intro kv hmem h1 h2
    refine List.mem_filter.mpr ⟨hmem, ?_⟩
    simp [KEYS_TO_REDACT, h1, h2]

/-- Witness for C9 (amended) at concrete inputs. -/
theorem C9_invocation_parameters_redaction_witness :
    ("temperature", JVal.num 0) ∈
      invocationParameters [("api_key", JVal.str "k"), ("temperature", JVal.num 0)] :=
  (C9_invocation_parameters_redaction
      [("api_key", JVal.str "k"), ("temperature", JVal.num 0)]).2.2
    ("temperature", JVal.num 0)
    (List.mem_cons_of_mem _ (List.mem_cons_self _ _))
    (by decide) (by decide)

theorem instrumentAux_fst_mem (w : String → Nat) :
    ∀ (ns : List String) (m : String → Option Nat) (p : String × Nat),
      p ∈ (instrumentAux w ns m).2 → p.1 ∈ ns := by
  intro ns
  induction ns with
  | nil => intro m p h; simp [instrumentAux] at h
  | cons n ns ih =>
    intro m p h
    cases hmn : m n with
    | none =>
      rw [instrumentAux, hmn] at h
      exact List.mem_cons_of_mem _ (ih m p h)
    | some orig =>
      rw [instrumentAux, hmn] at h
      rcases List.mem_cons.mp h with heq | hmem
      · rw [heq]
        exact List.mem_cons_self _ _
      · exact List.mem_cons_of_mem _ (ih _ p hmem)

theorem instrumentAux_reg_orig (w : String → Nat) :
    ∀ (ns : List String) (m : String → Option Nat) (p : String × Nat),
      ns.Nodup → p ∈ (instrumentAux w ns m).2 → m p.1 = some p.2 := by
  intro ns
  induction ns with
  | nil => intro m p _ h; simp [instrumentAux] at h
  | cons n ns ih =>
    intro m p hnd h
    have hn : n ∉ ns := (List.nodup_cons.mp hnd).1
    have hnd2 : ns.Nodup := (List.nodup_cons.mp hnd).2
    cases hmn : m n with
    | none =>
      rw [instrumentAux, hmn] at h
      exact ih m p hnd2 h
    | some orig =>
      rw [instrumentAux, hmn] at h
      rcases List.mem_cons.mp h with heq | hmem
      · rw [heq]
        simpa using hmn
      · have hfst : p.1 ∈ ns := instrumentAux_fst_mem w ns _ p hmem
        have hne : p.1 ≠ n := fun hcontra => hn (hcontra ▸ hfst)
        have := ih _ p hnd2 hmem
        rwa [updFn, if_neg hne] at this

theorem updFn_comm (m : String → Option Nat) (n pn : String) (v q : Nat) (hne : pn ≠ n) :
    updFn (updFn m n v) pn q = updFn (updFn m pn q) n v := by
  funext x
  by_cases hx2 : x = n
  · subst hx2
    simp [updFn, Ne.symm hne]
  · by_cases hx1 : x = pn
    · subst hx1
      simp [updFn, hx2]
    · simp [updFn, hx1, hx2]

theorem uninstrumentAux_comm (n : String) (v : Nat) :
    ∀ (reg : List (String × Nat)) (m : String → Option Nat) (k : String),
      n ∉ reg.map Prod.fst →
      uninstrumentAux reg (updFn m n v) k = if k = n then some v else uninstrumentAux reg m k := by
  intro reg
  induction reg with
  | nil => intro m k _; simp [uninstrumentAux, updFn]
  | cons p rest ih =>
    intro m k hn
    obtain ⟨pn, pv⟩ := p
    have hmap : n ∉ pn :: rest.map Prod.fst := by simpa using hn
    have hpn : pn ≠ n := by
      intro hc
      exact hmap (hc ▸ List.mem_cons_self _ _)
    have hrest : n ∉ rest.map Prod.fst := fun hc => hmap (List.mem_cons_of_mem _ hc)
    simp only [uninstrumentAux]
    rw [updFn_comm m n pn v pv hpn, ih _ k hrest]

theorem instrument_uninstrument_id (w : String → Nat) :
    ∀ (ns : List String), ns.Nodup → ∀ (m : String → Option Nat) (k : String),
      uninstrumentAux (instrumentAux w ns m).2 (instrumentAux w ns m).1 k = m k := by
  intro ns
  induction ns with
  | nil => intro _ m k; rfl
  | cons n ns ih =>
    intro hnd m k
    have hn : n ∉ ns := (List.nodup_cons.mp hnd).1
    have hnd2 : ns.Nodup := (List.nodup_cons.mp hnd).2
    cases hmn : m n with
    | none =>
      simp only [instrumentAux, hmn]
      exact ih hnd2 m k
    | some orig =>
      simp only [instrumentAux, hmn]
      have hsub : n ∉ ((instrumentAux w ns (updFn m n (w n))).2.map Prod.fst) := by
        intro hmem
        obtain ⟨p, hp, hfst⟩ := List.mem_map.mp hmem
        exact hn (hfst ▸ instrumentAux_fst_mem w ns _ p hp)
      simp only [uninstrumentAux]
      rw [uninstrumentAux_comm n orig _ _ k hsub]
      by_cases hk : k = n
      · subst hk
        simp [hmn]
      · rw [if_neg hk, ih hnd2 (updFn m n (w n)) k]
        simp [updFn, hk]

/-- C10: instrumenting and then uninstrumenting is a round trip: after
`_instrument` followed by `_uninstrument`, every litellm module attribute
(each patched function among completion, acompletion, completion_with_retries,
embedding, aembedding, image_generation, aimage_generation, and every
untouched attribute alike) again holds the exact function object it held
before, the registry recorded exactly the originals saved at install time,
and the original-function registry ends empty. -/
theorem C10_instrument_uninstrument_round_trip (w : String → Nat)
    (m : String → Option Nat) (k : String) :
    (litellmUninstrument (litellmInstrument w m).2 (litellmInstrument w m).1).1 k = m k ∧
    (litellmUninstrument (litellmInstrument w m).2 (litellmInstrument w m).1).2 = [] ∧
    (∀ p ∈ (litellmInstrument w m).2, m p.1 = some p.2 ∧ p.1 ∈ litellmFuncNames) := by
  refine ⟨?_, rfl, ?_⟩
  · exact instrument_uninstrument_id w litellmFuncNames (by decide) m k
  · intro p hp
    exact ⟨instrumentAux_reg_orig w litellmFuncNames m p (by decide) hp,
      instrumentAux_fst_mem w litellmFuncNames m p hp⟩

/-- A concrete litellm module for the C10 witness: only `completion` is
present. -/
def litellmExample : String → Option Nat :=
  fun k => if k = "completion" then some 7 else none

/-- Witness for C10 at concrete inputs. -/
theorem C10_instrument_uninstrument_round_trip_witness :
    (litellmUninstrument (litellmInstrument (fun _ => 99) litellmExample).2
        (litellmInstrument (fun _ => 99) litellmExample).1).1 "completion" =
      litellmExample "completion" ∧
    litellmExample "completion" = some 7 :=
  ⟨(C10_instrument_uninstrument_round_trip (fun _ => 99) litellmExample "completion").1,
   rfl⟩

end OpenInference
